import Mathlib

/-!
Shallow embedding of `ir_national_id_validator.py` (Iranian national ID
validator).  Strings are modelled as `List Char` (`Str`); Python's
`Optional[str]` becomes `Option Str`; a Python function that may raise is
modelled in `Option` / `Except` (with `none` / `.error` for the raised case).
-/

/-- Python strings modelled as lists of characters. -/
abbrev Str := List Char

/-- The character class of the regex `[0-9]` (a latin decimal digit). -/
def isLatinDigit (c : Char) : Bool := 48 ≤ c.toNat && c.toNat ≤ 57

/-- The module-level dict `_DIGIT_MAP`: Persian-script digits U+06F0..U+06F9
and Arabic-script digits U+0660..U+0669, each mapped to its latin digit. -/
def _DIGIT_MAP : List (Char × Char) :=
  [('۰', '0'), ('۱', '1'), ('۲', '2'), ('۳', '3'), ('۴', '4'),
   ('۵', '5'), ('۶', '6'), ('۷', '7'), ('۸', '8'), ('۹', '9'),
   ('٠', '0'), ('١', '1'), ('٢', '2'), ('٣', '3'), ('٤', '4'),
   ('٥', '5'), ('٦', '6'), ('٧', '7'), ('٨', '8'), ('٩', '9')]

/-- Dict lookup `_DIGIT_MAP.get(c)` (as `ch in _DIGIT_MAP` plus indexing). -/
def digitMapLookup (c : Char) : Option Char :=
  (_DIGIT_MAP.find? (fun p => p.1 == c)).map (fun p => p.2)

/-- One step of the translation loop body: `_DIGIT_MAP[ch] if ch in _DIGIT_MAP
else ch`. -/
def mapDigit (c : Char) : Char := (digitMapLookup c).getD c

/-- Code points stripped by Python's `str.strip()` with no argument (the
characters for which `str.isspace()` holds). -/
def pySpaceCodes : List Nat :=
  [9, 10, 11, 12, 13, 28, 29, 30, 31, 32, 133, 160, 5760,
   8192, 8193, 8194, 8195, 8196, 8197, 8198, 8199, 8200, 8201, 8202,
   8232, 8233, 8239, 8287, 12288]

/-- Python's whitespace test used by `str.strip()`. -/
def pyIsSpace (c : Char) : Bool := decide (c.toNat ∈ pySpaceCodes)

/-- Python `s.strip()`: remove leading and trailing whitespace. -/
def pyStrip (s : Str) : Str :=
  ((s.dropWhile pyIsSpace).reverse.dropWhile pyIsSpace).reverse

/-- `normalize_national_id(s)`: `None` becomes the empty string, the input is
stripped, Persian/Arabic digits are mapped to latin digits character by
character, then `re.sub(r'[^0-9]', '', joined)` removes every non latin-digit
character.  (The `str(s)` call is the identity on the `Optional[str]` input
domain and is not modelled separately.) -/
def normalize_national_id : Option Str → Str
  | none => []
  | some s0 =>
    let s := pyStrip s0
    if s = [] then []
    else ((s.map mapDigit).filter isLatinDigit)

/-- Python `int(ch)` on a single character, restricted to the digit characters
occurring in this module's domain (latin digits and the 20 glyphs of
`_DIGIT_MAP`; `int` on any other character raises `ValueError`, modelled as
`none`). -/
def pyDigitVal (c : Char) : Option Nat :=
  if isLatinDigit c then some (c.toNat - 48)
  else match digitMapLookup c with
       | some d => some (d.toNat - 48)
       | none => none

/-- The list comprehension `[int(ch) for ch in code10]`, evaluated left to
right, propagating a raised `ValueError` as `none`. -/
def intsOfChars : Str → Option (List Nat)
  | [] => some []
  | c :: t => do
    let d ← pyDigitVal c
    let rest ← intsOfChars t
    pure (d :: rest)

/-- The loop `for i in range(9): s += digits[i] * (10 - i)` starting from
`s = 0`; an out-of-range index raises `IndexError`, modelled as `none`. -/
def weightedSum (digits : List Nat) : Option Nat :=
  (List.range 9).foldlM
    (fun acc i => (digits.get? i).map (fun d => acc + d * (10 - i))) 0

/-- `_checksum_ok(code10)`: convert each character to an int, compute the
weighted sum of the first nine digits, reduce mod 11 and compare the tenth
digit with the expected check digit.  Any raised exception is `none`. -/
def _checksum_ok (code10 : Str) : Option Bool := do
  let digits ← intsOfChars code10
  let s ← weightedSum digits
  let check ← digits.get? 9
  let r := s % 11
  if r < 2 then pure (check == r) else pure (check == 11 - r)

/-- The failure reasons returned by `is_valid_national_id`. -/
inductive Reason where
  | empty
  | length_or_not_digits
  | all_same_digits
  | checksum
  | checksum_error
deriving DecidableEq, Repr

/-- The set `_INVALID_SAME_DIGITS = {str(i) * 10 for i in range(10)}`. -/
def _INVALID_SAME_DIGITS : List Str :=
  (List.range 10).map (fun i => List.replicate 10 (Char.ofNat (48 + i)))

/-- The character class of the regex `\d` in Python 3 (Unicode decimal
digits), restricted to the digit characters in this module's domain: latin
digits and the glyphs of `_DIGIT_MAP`.  On strings produced by
`normalize_national_id` (latin digits only) this restriction is exact. -/
def isPyRegexDigit (c : Char) : Bool := isLatinDigit c || (digitMapLookup c).isSome

/-- `_RE_10_DIGITS.match(norm)` for the pattern `^\d{10}$`. -/
def re10Match (s : Str) : Bool := s.length == 10 && s.all isPyRegexDigit

/-- `is_valid_national_id`, parameterized by the checksum function so that the
short-circuiting of the validation pipeline (which stages are reached) is
expressible.  The `try/except` around the checksum call maps the raised case
(`none`) to reason `checksum_error`. -/
def is_valid_core (chk : Str → Option Bool) : Option Str → Bool × Option Reason × Option Str
  | none => (false, some Reason.empty, none)
  | some s =>
    let norm := normalize_national_id (some s)
    if norm = [] then (false, some Reason.empty, none)
    else if re10Match norm = false then (false, some Reason.length_or_not_digits, some norm)
    else if norm ∈ _INVALID_SAME_DIGITS then (false, some Reason.all_same_digits, some norm)
    else
      match chk norm with
      | some true => (true, none, some norm)
      | some false => (false, some Reason.checksum, some norm)
      | none => (false, some Reason.checksum_error, some norm)

/-- `is_valid_national_id(s)` as in the source: the pipeline with the real
checksum function. -/
def is_valid_national_id : Option Str → Bool × Option Reason × Option Str :=
  is_valid_core _checksum_ok

/-- The text of a reason as interpolated into the error message (Python
prints the reason string, or `None`). -/
def reasonText : Option Reason → Str
  | none => "None".data
  | some Reason.empty => "empty".data
  | some Reason.length_or_not_digits => "length_or_not_digits".data
  | some Reason.all_same_digits => "all_same_digits".data
  | some Reason.checksum => "checksum".data
  | some Reason.checksum_error => "checksum_error".data

/-- The text of the optional normalized code as interpolated into the error
message. -/
def normText : Option Str → Str
  | none => "None".data
  | some l => l

/-- `validate_or_raise(s)`: return the normalized code on success, otherwise
raise `ValueError` with the formatted message (modelled as `Except.error`
carrying the message).  In the success case the source returns `norm`, which
is provably non-`None` there (`valid_norm_eq` below); `getD []` realizes that
cast. -/
def validate_or_raise (s : Option Str) : Except Str Str :=
  match is_valid_national_id s with
  | (true, _, norm) => Except.ok (norm.getD [])
  | (false, reason, norm) =>
      Except.error ("Invalid national id: reason=".data ++ reasonText reason
        ++ ", normalized=".data ++ normText norm)

/-- `is_valid(s)`: the boolean convenience wrapper. -/
def is_valid (s : Option Str) : Bool := (is_valid_national_id s).1

/-- Spec-side formula: `S` as the sum over `i` in `0..8` of `d[i] * (10-i)`. -/
def specWeightedSum (d : List Nat) : Nat :=
  ((List.range 9).map (fun i => d.getD i 0 * (10 - i))).sum

/-- Spec-side formula: the expected check digit, `R` when `R < 2` and `11 - R`
otherwise, for `R = S mod 11`. -/
def specCheckDigit (d : List Nat) : Nat :=
  let r := specWeightedSum d % 11
  if r < 2 then r else 11 - r

/-- Numeric value of a latin digit character. -/
def digitVal (c : Char) : Nat := c.toNat - 48

/-! ## Character-class lemmas -/

/-- The keys of `_DIGIT_MAP` lie in U+06F0..U+06F9 and U+0660..U+0669, so the
lookup misses every character outside those two ranges. -/
lemma digitMapLookup_eq_none (c : Char)
    (h : c.toNat < 1632 ∨ 1785 < c.toNat ∨ (1641 < c.toNat ∧ c.toNat < 1776)) :
    digitMapLookup c = none := by
  unfold digitMapLookup
  rw [List.find?_eq_none.mpr]
  · rfl
  intro x hx
  simp only [_DIGIT_MAP, List.mem_cons, List.not_mem_nil, or_false] at hx
  rcases hx with rfl | rfl | rfl | rfl | rfl | rfl | rfl | rfl | rfl | rfl |
    rfl | rfl | rfl | rfl | rfl | rfl | rfl | rfl | rfl | rfl <;>
    (simp only [beq_iff_eq]; intro heq; subst heq; exact absurd h (by decide))

/-- A latin digit is not a key of `_DIGIT_MAP`. -/
lemma mapDigit_eq_self_of_digit (c : Char) (h : isLatinDigit c = true) :
    mapDigit c = c := by
  have hb : c.toNat ≤ 57 := by
    simp only [isLatinDigit, Bool.and_eq_true, decide_eq_true_eq] at h
    exact h.2
  unfold mapDigit
  rw [digitMapLookup_eq_none c (Or.inl (by omega))]
  rfl

/-- A latin digit is not Python whitespace. -/
lemma pyIsSpace_eq_false_of_digit (c : Char) (h : isLatinDigit c = true) :
    pyIsSpace c = false := by
  simp only [isLatinDigit, Bool.and_eq_true, decide_eq_true_eq] at h
  simp only [pyIsSpace, pySpaceCodes, List.mem_cons, List.not_mem_nil, or_false,
    decide_eq_false_iff_not]
  omega

/-- A Python whitespace character survives the digit-translation step as a
non-digit: it is untouched by `_DIGIT_MAP` and is not a latin digit. -/
lemma space_not_digit (c : Char) (h : pyIsSpace c = true) :
    isLatinDigit (mapDigit c) = false := by
  simp only [pyIsSpace, pySpaceCodes, List.mem_cons, List.not_mem_nil, or_false,
    decide_eq_true_eq] at h
  have hlk : digitMapLookup c = none := by
    apply digitMapLookup_eq_none
    omega
  unfold mapDigit
  rw [hlk]
  simp only [Option.getD_none, isLatinDigit]
  have : c.toNat < 48 ∨ 57 < c.toNat := by omega
  rcases this with h1 | h1 <;> simp <;> omega

/-! ## Normalization lemmas -/

/-- Dropping leading whitespace does not change the digits that survive
translation and filtering. -/
lemma keep_filter_dropWhile (s : Str) :
    ((s.dropWhile pyIsSpace).map mapDigit).filter isLatinDigit
      = (s.map mapDigit).filter isLatinDigit := by
  induction s with
  | nil => rfl
  | cons c t ih =>
    rw [List.dropWhile_cons]
    by_cases h : pyIsSpace c = true
    · rw [if_pos h, ih, List.map_cons, List.filter_cons, space_not_digit c h]
      simp
    · rw [if_neg h]

/-- Stripping surrounding whitespace does not change the digits that survive
translation and filtering. -/
lemma filter_map_pyStrip (s : Str) :
    ((pyStrip s).map mapDigit).filter isLatinDigit
      = (s.map mapDigit).filter isLatinDigit := by
  unfold pyStrip
  rw [List.map_reverse, List.filter_reverse, keep_filter_dropWhile,
    ← List.filter_reverse, ← List.map_reverse, List.reverse_reverse,
    keep_filter_dropWhile]

/-- Closed form of the normalizer on a present input: translate every
character, then keep exactly the latin digits, in input order. -/
lemma normalize_eq_filter_map (s : Str) :
    normalize_national_id (some s) = (s.map mapDigit).filter isLatinDigit := by
  unfold normalize_national_id
  by_cases h : pyStrip s = []
  · simp only [h, if_pos]
    rw [← filter_map_pyStrip, h]
    rfl
  · simp only [h, if_neg, filter_map_pyStrip]
    simp

/-- Every character of a normalized string is a latin digit. -/
lemma normalize_all_digit (s : Option Str) :
    (normalize_national_id s).all isLatinDigit = true := by
  cases s with
  | none => rfl
  | some s0 =>
    rw [normalize_eq_filter_map, List.all_eq_true]
    intro c hc
    exact (List.mem_filter.mp hc).2

/-- A list on which `f` is pointwise the identity is fixed by `map f`. -/
lemma map_eq_self_of_pointwise (f : α → α) (l : List α)
    (h : ∀ a ∈ l, f a = a) : l.map f = l := by
  induction l with
  | nil => rfl
  | cons a t ih =>
    rw [List.map_cons, h a (List.mem_cons_self a t),
      ih (fun b hb => h b (List.mem_cons_of_mem a hb))]

/-- A string of latin digits is a fixed point of the normalizer. -/
lemma normalize_fixed (s : Str) (h : s.all isLatinDigit = true) :
    normalize_national_id (some s) = s := by
  rw [normalize_eq_filter_map]
  rw [List.all_eq_true] at h
  rw [map_eq_self_of_pointwise mapDigit s (fun c hc => mapDigit_eq_self_of_digit c (h c hc))]
  exact List.filter_eq_self.mpr h

/-! ## Checksum lemmas -/

/-- `int` on a latin digit character yields its numeric value. -/
lemma pyDigitVal_of_digit (c : Char) (h : isLatinDigit c = true) :
    pyDigitVal c = some (digitVal c) := by
  unfold pyDigitVal digitVal
  rw [if_pos h]

/-- On an all-latin-digit string, the digit-list comprehension succeeds and
produces the digit values. -/
lemma intsOfChars_of_all (s : Str) (h : s.all isLatinDigit = true) :
    intsOfChars s = some (s.map digitVal) := by
  induction s with
  | nil => rfl
  | cons c t ih =>
    rw [List.all_cons, Bool.and_eq_true] at h
    simp only [intsOfChars, pyDigitVal_of_digit c h.1, ih h.2, Option.bind_some,
      List.map_cons]
    rfl

/-- Reduction of a monadic bind on a present `Option` value. -/
lemma some_bind_eq (a : α) (f : α → Option β) : (do let x ← some a; f x) = f a := rfl

/-- Evaluation of the weighted-sum loop on a ten-element digit list. -/
lemma weightedSum_eval (d0 d1 d2 d3 d4 d5 d6 d7 d8 d9 : Nat) :
    weightedSum [d0, d1, d2, d3, d4, d5, d6, d7, d8, d9]
      = some (0 + d0 * 10 + d1 * 9 + d2 * 8 + d3 * 7 + d4 * 6 + d5 * 5 + d6 * 4
          + d7 * 3 + d8 * 2) := rfl

/-- A list of length 10 is literally ten elements. -/
lemma exists_ten (s : Str) (h10 : s.length = 10) :
    ∃ a b c d e f g h i j : Char, s = [a, b, c, d, e, f, g, h, i, j] := by
  rcases s with _ | ⟨c0, _ | ⟨c1, _ | ⟨c2, _ | ⟨c3, _ | ⟨c4, _ | ⟨c5, _ | ⟨c6,
    _ | ⟨c7, _ | ⟨c8, _ | ⟨c9, _ | ⟨c10, t⟩⟩⟩⟩⟩⟩⟩⟩⟩⟩⟩ <;>
    simp only [List.length_cons, List.length_nil] at h10 <;> try omega
  exact ⟨c0, c1, c2, c3, c4, c5, c6, c7, c8, c9, rfl⟩

set_option maxHeartbeats 1000000 in
/-- Evaluation of `_checksum_ok` on a 10-digit string: it never raises, and it
returns exactly the comparison of the tenth digit with the spec's expected
check digit. -/
lemma checksum_ok_eval (s : Str) (h10 : s.length = 10)
    (hd : s.all isLatinDigit = true) :
    _checksum_ok s
      = some (digitVal (s.getD 9 '0') == specCheckDigit (s.map digitVal)) := by
  obtain ⟨c0, c1, c2, c3, c4, c5, c6, c7, c8, c9, rfl⟩ := exists_ten s h10
  have hS : specWeightedSum [digitVal c0, digitVal c1, digitVal c2, digitVal c3,
        digitVal c4, digitVal c5, digitVal c6, digitVal c7, digitVal c8, digitVal c9]
      = 0 + digitVal c0 * 10 + digitVal c1 * 9 + digitVal c2 * 8 + digitVal c3 * 7
        + digitVal c4 * 6 + digitVal c5 * 5 + digitVal c6 * 4 + digitVal c7 * 3
        + digitVal c8 * 2 := by
    show digitVal c0 * 10 + (digitVal c1 * 9 + (digitVal c2 * 8 + (digitVal c3 * 7
      + (digitVal c4 * 6 + (digitVal c5 * 5 + (digitVal c6 * 4 + (digitVal c7 * 3
      + (digitVal c8 * 2 + 0)))))))) = _
    omega
  rw [_checksum_ok, intsOfChars_of_all _ hd, some_bind_eq]
  rw [show List.map digitVal [c0, c1, c2, c3, c4, c5, c6, c7, c8, c9]
      = [digitVal c0, digitVal c1, digitVal c2, digitVal c3, digitVal c4,
         digitVal c5, digitVal c6, digitVal c7, digitVal c8, digitVal c9] from rfl,
    weightedSum_eval, some_bind_eq]
  rw [show ([digitVal c0, digitVal c1, digitVal c2, digitVal c3, digitVal c4,
      digitVal c5, digitVal c6, digitVal c7, digitVal c8, digitVal c9].get? 9)
      = some (digitVal c9) from rfl, some_bind_eq]
  rw [← hS]
  rw [show ([c0, c1, c2, c3, c4, c5, c6, c7, c8, c9].getD 9 '0') = c9 from rfl]
  simp only [specCheckDigit, Option.pure_def]
  rcases Nat.lt_or_ge
    (specWeightedSum [digitVal c0, digitVal c1, digitVal c2, digitVal c3, digitVal c4,
      digitVal c5, digitVal c6, digitVal c7, digitVal c8, digitVal c9] % 11) 2
    with hr | hr
  · rw [if_pos hr, if_pos hr]
  · rw [if_neg (Nat.not_lt.mpr hr), if_neg (Nat.not_lt.mpr hr)]

/-! ## Validation pipeline lemmas -/

/-- A string matching `^\d{10}$` has length 10. -/
lemma re10_length (s : Str) (h : re10Match s = true) : s.length = 10 := by
  simp only [re10Match, Bool.and_eq_true, beq_iff_eq] at h
  exact h.1

/-- A string of ten latin digits matches `^\d{10}$`. -/
lemma re10_of_digits (s : Str) (hlen : s.length = 10)
    (hd : s.all isLatinDigit = true) : re10Match s = true := by
  simp only [re10Match, Bool.and_eq_true, beq_iff_eq]
  refine ⟨hlen, ?_⟩
  rw [List.all_eq_true] at hd ⊢
  intro c hc
  simp [isPyRegexDigit, hd c hc]

/-- The failure reason is present exactly on the invalid results, for any
checksum stage. -/
lemma reason_iff_not_ok (chk : Str → Option Bool) (s : Option Str) :
    ((is_valid_core chk s).2.1).isSome = !(is_valid_core chk s).1 := by
  cases s with
  | none => rfl
  | some s0 =>
    simp only [is_valid_core]
    split_ifs <;> try rfl
    rcases h : chk (normalize_national_id (some s0)) with _ | b
    · simp [h]
    · cases b <;> simp [h]

/-- The normalized-code component of a result is the normalized input, present
exactly when normalization produced at least one digit. -/
lemma norm_component (chk : Str → Option Bool) (s : Option Str) :
    (is_valid_core chk s).2.2
      = if normalize_national_id s = [] then none
        else some (normalize_national_id s) := by
  cases s with
  | none => rfl
  | some s0 =>
    simp only [is_valid_core]
    split_ifs <;> try rfl
    rcases h : chk (normalize_national_id (some s0)) with _ | b
    · simp [h]
    · cases b <;> simp [h]

/-- Inversion of a successful validation: the input was present, its
normalization is ten digits, not a repeated-digit pattern, the checksum stage
returned `True`, and the result is exactly the success triple. -/
lemma valid_inversion (chk : Str → Option Bool) (s : Option Str)
    (h : (is_valid_core chk s).1 = true) :
    ∃ s0, s = some s0 ∧
      normalize_national_id s ≠ [] ∧
      re10Match (normalize_national_id s) = true ∧
      normalize_national_id s ∉ _INVALID_SAME_DIGITS ∧
      chk (normalize_national_id s) = some true ∧
      is_valid_core chk s = (true, none, some (normalize_national_id s)) := by
  cases s with
  | none => exact absurd h (by simp [is_valid_core])
  | some s0 =>
    refine ⟨s0, rfl, ?_⟩
    simp only [is_valid_core] at h ⊢
    split_ifs at h ⊢ with h1 h2 h3
    rcases hc : chk (normalize_national_id (some s0)) with _ | b
    · rw [hc] at h
      exact Bool.noConfusion h
    · cases b
      · rw [hc] at h
        exact Bool.noConfusion h
      · simp only [Bool.not_eq_false] at h2
        exact ⟨h1, h2, h3, rfl, rfl⟩

/-! ## Claim theorems -/

/-- C1: for every string of exactly 10 decimal digits, the checksum verifier
passes iff the tenth digit equals the expected check digit computed from
`S = Σ d[i]*(10-i)`, `R = S mod 11`, expected `R` if `R < 2` else `11 - R`;
consequently `validate` reports reason `checksum` exactly when that equality
fails, for a structurally valid, non-repeated 10-digit normalized input. -/
theorem checksum_spec (s : Str) (h10 : s.length = 10)
    (hd : s.all isLatinDigit = true) :
    (_checksum_ok s = some true ↔
      digitVal (s.getD 9 '0') = specCheckDigit (s.map digitVal)) ∧
    (s ∉ _INVALID_SAME_DIGITS →
      ((is_valid_national_id (some s)).2.1 = some Reason.checksum ↔
        ¬ digitVal (s.getD 9 '0') = specCheckDigit (s.map digitVal))) := by
  constructor
  · rw [checksum_ok_eval s h10 hd]
    simp
  · intro hmem
    have hne : s ≠ [] := by
      intro h0
      rw [h0] at h10
      exact absurd h10 (by decide)
    have hfix := normalize_fixed s hd
    simp only [is_valid_national_id, is_valid_core, hfix]
    rw [if_neg hne, if_neg (by simp [re10_of_digits s h10 hd]), if_neg hmem,
      checksum_ok_eval s h10 hd]
    cases hb : (digitVal (s.getD 9 '0') == specCheckDigit (s.map digitVal)) with
    | false =>
      simp only [beq_eq_false_iff_ne, ne_eq, List.getD, List.get?_eq_getElem?] at hb
      simp [hb]
    | true =>
      simp only [beq_iff_eq, List.getD, List.get?_eq_getElem?] at hb
      simp [hb]

/-- Witness for C1 at the concrete input 1234567890, whose check digit 0
differs from the expected value 1. -/
theorem checksum_spec_witness :
    (is_valid_national_id (some ("1234567890".data))).2.1 = some Reason.checksum :=
  ((checksum_spec ("1234567890".data) (by decide) (by decide)).2 (by decide)).mpr
    (by decide)

/-- C2: in every result of `validate`, the failure reason is present iff the
validity flag is false; the normalized code equals the (nonempty) normalized
input even when a later stage fails; and the normalized code is absent exactly
when normalization produced no digits. -/
theorem result_invariant (s : Option Str) :
    (((is_valid_national_id s).2.1).isSome ↔ (is_valid_national_id s).1 = false) ∧
    (normalize_national_id s ≠ [] →
      (is_valid_national_id s).2.2 = some (normalize_national_id s)) ∧
    ((is_valid_national_id s).2.2 = none ↔ normalize_national_id s = []) := by
  refine ⟨?_, ?_, ?_⟩
  · have h := reason_iff_not_ok _checksum_ok s
    rw [show is_valid_national_id s = is_valid_core _checksum_ok s from rfl, h]
    cases (is_valid_core _checksum_ok s).1 <;> simp
  · intro h
    rw [show is_valid_national_id s = is_valid_core _checksum_ok s from rfl,
      norm_component _checksum_ok s, if_neg h]
  · rw [show is_valid_national_id s = is_valid_core _checksum_ok s from rfl,
      norm_component _checksum_ok s]
    by_cases h : normalize_national_id s = []
    · simp [h]
    · simp [h]

/-- Witness for C2 at the malformed input 12-34, which fails the length gate
but still reports its parsed digits 1234. -/
theorem result_invariant_witness :
    (is_valid_national_id (some ("12-34".data))).2.2 = some ("1234".data) :=
  ((result_invariant (some ("12-34".data))).2.1 (by decide)).trans (by decide)

/-- C3: each of the ten single-digit-repeated 10-character strings is rejected
with reason `all_same_digits`, for an arbitrary checksum stage — so the
checksum verifier is never consulted on them. -/
theorem same_digit_rejected (chk : Str → Option Bool) (i : Nat) (hi : i < 10) :
    is_valid_core chk (some (List.replicate 10 (Char.ofNat (48 + i))))
      = (false, some Reason.all_same_digits,
         some (List.replicate 10 (Char.ofNat (48 + i)))) := by
  interval_cases i <;> rfl

/-- Witness for C3 at the repeated digit 1 with the real checksum stage. -/
theorem same_digit_rejected_witness :
    is_valid_core _checksum_ok (some (List.replicate 10 (Char.ofNat (48 + 1))))
      = (false, some Reason.all_same_digits,
         some (List.replicate 10 (Char.ofNat (48 + 1)))) :=
  same_digit_rejected _checksum_ok 1 (by decide)

/-- C4: the checksum computation completes (never raises) on every string of
exactly 10 latin digits, hence `validate` can never return the defensive
reason `checksum_error`. -/
theorem no_checksum_error :
    (∀ s : Str, s.length = 10 → s.all isLatinDigit = true → _checksum_ok s ≠ none) ∧
    (∀ s : Option Str, (is_valid_national_id s).2.1 ≠ some Reason.checksum_error) := by
  constructor
  · intro s h10 hd
    rw [checksum_ok_eval s h10 hd]
    simp
  · intro s
    cases s with
    | none => simp [is_valid_national_id, is_valid_core]
    | some s0 =>
      simp only [is_valid_national_id, is_valid_core]
      split_ifs with h1 h2 h3
      · simp
      · simp
      · simp
      · simp only [Bool.not_eq_false] at h2
        have h10 := re10_length _ h2
        have hd := normalize_all_digit (some s0)
        rw [checksum_ok_eval _ h10 hd]
        cases (digitVal ((normalize_national_id (some s0)).getD 9 '0')
            == specCheckDigit ((normalize_national_id (some s0)).map digitVal)) <;>
          simp

/-- Witness for C4 at the 10-digit input 1234567890. -/
theorem no_checksum_error_witness :
    _checksum_ok ("1234567890".data) ≠ none :=
  no_checksum_error.1 ("1234567890".data) (by decide) (by decide)

/-- C5: every Persian-script digit glyph (U+06F0+i) and Arabic-script digit
glyph (U+0660+i) is mapped to the latin digit of value `i`, and the normalizer
is exactly the per-character translation followed by keeping the latin digits
in input order. -/
theorem normalize_mapping :
    (∀ i : Nat, i < 10 →
      mapDigit (Char.ofNat (1776 + i)) = Char.ofNat (48 + i) ∧
      mapDigit (Char.ofNat (1632 + i)) = Char.ofNat (48 + i)) ∧
    (∀ s : Str,
      normalize_national_id (some s) = (s.map mapDigit).filter isLatinDigit) := by
  constructor
  · intro i hi
    interval_cases i <;> exact ⟨rfl, rfl⟩
  · exact normalize_eq_filter_map

/-- Witness for C5 at the Persian digit three and a mixed sample string. -/
theorem normalize_mapping_witness :
    mapDigit (Char.ofNat (1776 + 3)) = Char.ofNat (48 + 3) :=
  ((normalize_mapping.1 3 (by decide)).1)

/-- C6: normalization is idempotent, and every string of latin digits is a
fixed point of it. -/
theorem normalize_idempotent :
    (∀ x : Option Str,
      normalize_national_id (some (normalize_national_id x)) = normalize_national_id x) ∧
    (∀ s : Str, s.all isLatinDigit = true → normalize_national_id (some s) = s) := by
  constructor
  · intro x
    exact normalize_fixed _ (normalize_all_digit x)
  · exact normalize_fixed

/-- Witness for C6: the digit string 123 is a fixed point. -/
theorem normalize_idempotent_witness :
    normalize_national_id (some ("123".data)) = "123".data :=
  normalize_idempotent.2 ("123".data) (by decide)

/-- C7: `validate` is total — it returns a structured triple whose failure
reason tracks the validity flag for every input — and returns
`(false, empty, none)` for the absent and for the empty input. -/
theorem validate_total :
    is_valid_national_id none = (false, some Reason.empty, none) ∧
    is_valid_national_id (some ("".data)) = (false, some Reason.empty, none) ∧
    (∀ s : Option Str, ∃ ok r n,
      is_valid_national_id s = (ok, r, n) ∧ r.isSome = !ok) := by
  refine ⟨rfl, by decide, fun s => ⟨_, _, _, rfl, ?_⟩⟩
  exact reason_iff_not_ok _checksum_ok s

/-- C8: `validate_or_raise` returns the normalized code on success, and on
failure raises an error whose message contains both the failure reason text
and the normalized-code text; in particular on 1234567890 the message
contains both checksum and 1234567890. -/
theorem validate_or_raise_spec :
    (∀ s : Option Str, ∀ n : Str, is_valid_national_id s = (true, none, some n) →
      validate_or_raise s = Except.ok n) ∧
    (∀ s : Option Str, (is_valid_national_id s).1 = false →
      ∃ msg : Str, validate_or_raise s = Except.error msg ∧
        (∃ l r, msg = l ++ reasonText (is_valid_national_id s).2.1 ++ r) ∧
        (∃ l r, msg = l ++ normText (is_valid_national_id s).2.2 ++ r)) ∧
    (∃ msg : Str, validate_or_raise (some ("1234567890".data)) = Except.error msg ∧
      (∃ l r, msg = l ++ "checksum".data ++ r) ∧
      (∃ l r, msg = l ++ "1234567890".data ++ r)) := by
  refine ⟨?_, ?_, ?_⟩
  · intro s n h
    rw [validate_or_raise, h]
    rfl
  · intro s h
    rcases ht : is_valid_national_id s with ⟨ok, r, nn⟩
    rw [ht] at h
    subst h
    rw [validate_or_raise, ht]
    refine ⟨_, rfl, ⟨"Invalid national id: reason=".data,
      ", normalized=".data ++ normText nn, by simp⟩,
      ⟨"Invalid national id: reason=".data ++ reasonText r ++ ", normalized=".data,
      [], by simp⟩⟩
  · refine ⟨("Invalid national id: reason=checksum, normalized=1234567890".data),
      by rfl, ⟨"Invalid national id: reason=".data,
      ", normalized=1234567890".data, by decide⟩,
      ⟨"Invalid national id: reason=checksum, normalized=".data, [], by decide⟩⟩

/-- Witness for C8: on the valid id 0499370899 the raising variant returns
the normalized code. -/
theorem validate_or_raise_spec_witness :
    validate_or_raise (some ("0499370899".data)) = Except.ok ("0499370899".data) :=
  validate_or_raise_spec.1 (some ("0499370899".data)) ("0499370899".data) (by decide)

/-- C9: the well-known valid id 0499370899 validates, and its Persian-glyph
form normalizes to the same latin-digit string and validates identically. -/
theorem known_valid_id :
    is_valid_national_id (some ("0499370899".data))
      = (true, none, some ("0499370899".data)) ∧
    normalize_national_id (some ("۰۴۹۹۳۷۰۸۹۹".data)) = "0499370899".data ∧
    is_valid_national_id (some ("۰۴۹۹۳۷۰۸۹۹".data))
      = (true, none, some ("0499370899".data)) :=
  ⟨by decide, by decide, by decide⟩

/-- C10: a successful validation's normalized code is ten latin digits, a
fixed point of normalization, and revalidates to the same successful result;
likewise the string returned by `validate_or_raise` is accepted by both entry
points. -/
theorem valid_output_revalidates (s : Option Str) (n : Str)
    (h : is_valid_national_id s = (true, none, some n) ∨
         validate_or_raise s = Except.ok n) :
    n.length = 10 ∧ n.all isLatinDigit = true ∧
    normalize_national_id (some n) = n ∧
    is_valid_national_id (some n) = (true, none, some n) ∧
    validate_or_raise (some n) = Except.ok n := by
  have hvalid : (is_valid_national_id s).1 = true := by
    rcases h with h | h
    · rw [h]
    · rw [validate_or_raise] at h
      rcases ht : is_valid_national_id s with ⟨ok, r, nn⟩
      rw [ht] at h
      cases ok
      · exact absurd h (by simp)
      · rfl
  obtain ⟨s0, hs0, hne, hre, hmem, hchk, heq⟩ :=
    valid_inversion _checksum_ok s hvalid
  rw [show is_valid_core _checksum_ok s = is_valid_national_id s from rfl] at heq
  have hn : n = normalize_national_id s := by
    rcases h with h | h
    · rw [h] at heq
      exact Option.some.inj (congrArg (fun t => t.2.2) heq)
    · rw [validate_or_raise] at h
      rw [heq] at h
      have h2 : Except.ok (α := Str) (normalize_national_id s) = Except.ok n := h
      exact (Except.ok.inj h2).symm
  subst hn
  have hv : is_valid_national_id (some (normalize_national_id s))
      = (true, none, some (normalize_national_id s)) := by
    have hfix := normalize_fixed _ (normalize_all_digit s)
    simp only [is_valid_national_id, is_valid_core, hfix]
    rw [if_neg hne, if_neg (by simp [hre]), if_neg hmem, hchk]
  refine ⟨re10_length _ hre, normalize_all_digit s,
    normalize_fixed _ (normalize_all_digit s), hv, ?_⟩
  rw [validate_or_raise, hv]
  rfl

/-- Witness for C10 at the valid id 0499370899. -/
theorem valid_output_revalidates_witness :
    normalize_national_id (some ("0499370899".data)) = "0499370899".data :=
  (valid_output_revalidates (some ("0499370899".data)) ("0499370899".data)
    (Or.inl (by decide))).2.2.1
